import Mathlib

/-!
Shallow embedding of the credential/session subsystem of the PomoGrow
repository (file `src/utils/auth` in the source tree, provided as
`src/unnamed/part_003`).

Modelling conventions:
* Timestamps (ISO strings produced by `new Date(...).toISOString()` in the
  source) are modelled as natural numbers of milliseconds, since the ISO
  round trip is order preserving and the code only compares and adds them.
* `localStorage` is modelled as an explicit `StoreState` record threaded
  through every operation.
* The third-party primitives `bcrypt.hash` / `bcrypt.compare` and
  `validator.isEmail` are not part of the repository; operations that use
  them take them as function parameters (`hash`, `verify`, `isEmail`).
  `uuidv4()` results are likewise passed in as explicit token arguments.
* `validator.escape` is modelled concretely by its documented character
  substitutions (HTML entity escaping).
* JS `undefined` optional fields become `Option`.
-/

namespace PomoGrow

/-- The `User` interface of the source: one stored credential record. -/
structure User where
  studyId : String
  email : String
  passwordHash : String
  preferredName : String
  createdAt : Nat
  lastLogin : Nat
  failedAttempts : Nat
  lockedUntil : Option Nat
  isVerified : Bool
  resetToken : Option String
  resetTokenExpiry : Option Nat
deriving Repr, DecidableEq

/-- The `AuthSession` interface of the source: one stored session record. -/
structure AuthSession where
  studyId : String
  email : String
  sessionToken : String
  expiresAt : Nat
deriving Repr, DecidableEq

/-- One entry of the `security_logs` collection. -/
structure LogEntry where
  timestamp : Nat
  event : String
  identifier : String
deriving Repr, DecidableEq

/-- The three `localStorage` collections the subsystem reads and writes. -/
structure StoreState where
  users : List User
  sessions : List AuthSession
  securityLogs : List LogEntry
deriving Repr, DecidableEq

/-- `MAX_FAILED_ATTEMPTS` constant of the source. -/
def MAX_FAILED_ATTEMPTS : Nat := 3

/-- `LOCK_DURATION` constant of the source: 30 minutes in milliseconds. -/
def LOCK_DURATION : Nat := 30 * 60 * 1000

/-- `SESSION_DURATION` constant of the source: 24 hours in milliseconds. -/
def SESSION_DURATION : Nat := 24 * 60 * 60 * 1000

/-- JS `String.prototype.toLowerCase`, restricted to the ASCII case
mapping (the only case the stored identifiers and emails exercise). -/
def jsToLower (s : String) : String := ⟨s.data.map Char.toLower⟩

/-- Strips leading and trailing whitespace from a character list. -/
def trimList (l : List Char) : List Char :=
  ((l.dropWhile Char.isWhitespace).reverse.dropWhile Char.isWhitespace).reverse

/-- JS `String.prototype.trim`. -/
def jsTrim (s : String) : String := ⟨trimList s.data⟩

/-- JS `String.prototype.endsWith`. -/
def jsEndsWith (s suffix : String) : Bool := suffix.data.isSuffixOf s.data

/-- JS `Array.prototype.join` on strings. -/
def joinSep (sep : String) : List String → String
  | [] => ""
  | [x] => x
  | x :: y :: xs => x ++ sep ++ joinSep sep (y :: xs)

/-- Character substitution performed by `validator.escape`. -/
def escapeChar (c : Char) : String :=
  if c = '&' then "&amp;"
  else if c = Char.ofNat 34 then "&quot;"
  else if c = Char.ofNat 39 then "&#x27;"
  else if c = '<' then "&lt;"
  else if c = '>' then "&gt;"
  else if c = '/' then "&#x2F;"
  else if c = '\\' then "&#x5C;"
  else if c = Char.ofNat 96 then "&#96;"
  else String.singleton c

/-- The `validator.escape` library call used by `sanitizeInput`. -/
def escapeHtml (s : String) : String :=
  String.join (s.data.map escapeChar)

/-- `sanitizeInput` of the source: `validator.escape(input.trim())`. -/
def sanitizeInput (input : String) : String :=
  escapeHtml (jsTrim input)

/-- `validateEmail` of the source, parameterised by the third-party
`validator.isEmail` predicate: `isEmail(email) && email.endsWith("@gmail.com")`. -/
def validateEmail (isEmail : String → Bool) (email : String) : Bool :=
  isEmail email && jsEndsWith email "@gmail.com"

/-- The fixed punctuation set of the password policy:
the character class of the regex `[!@#$%^&*(),.?":\x7b\x7d|<>]`. -/
def specialChars : String := "!@#$%^&*(),.?\":\x7b\x7d|<>"

/-- Result record of `validatePassword`. -/
structure PasswordCheck where
  isValid : Bool
  errors : List String
deriving Repr, DecidableEq

/-- Violation message for the length rule. -/
def lenMsg : String := "Password must be at least 8 characters long"

/-- Violation message for the uppercase rule. -/
def upperMsg : String := "Password must contain at least one uppercase letter"

/-- Violation message for the lowercase rule. -/
def lowerMsg : String := "Password must contain at least one lowercase letter"

/-- Violation message for the digit rule. -/
def digitMsg : String := "Password must contain at least one number"

/-- Violation message for the special-character rule. -/
def specialMsg : String := "Password must contain at least one special character"

/-- `validatePassword` of the source: collects every violated rule. -/
def validatePassword (password : String) : PasswordCheck :=
  let errors : List String :=
    (if password.length < 8 then [lenMsg] else []) ++
    (if !(password.data.any Char.isUpper) then [upperMsg] else []) ++
    (if !(password.data.any Char.isLower) then [lowerMsg] else []) ++
    (if !(password.data.any Char.isDigit) then [digitMsg] else []) ++
    (if !(password.data.any (fun c => specialChars.data.contains c)) then [specialMsg] else [])
  { isValid := errors.length == 0, errors := errors }

/-- Replaces the first element satisfying `p` by its image under `f`:
this models the source pattern of mutating the record found by
`users.find(...)` inside the loaded array and saving the whole array back. -/
def updateFirst (p : α → Bool) (f : α → α) : List α → List α
  | [] => []
  | x :: xs => if p x then f x :: xs else x :: updateFirst p f xs

/-- `logSecurityEvent` of the source, restricted to its effect on the
`security_logs` collection: append the entry, then
`splice(0, length - 100)` whenever the length exceeds 100. -/
def logSecurityEvent (now : Nat) (event identifier : String)
    (logs : List LogEntry) : List LogEntry :=
  let logs2 := logs ++ [{ timestamp := now, event := event, identifier := identifier }]
  if logs2.length > 100 then logs2.drop (logs2.length - 100) else logs2

/-- `createSession` of the source: build the session record, drop every
stored session owned by the same study id, append the new one, save. -/
def createSession (now : Nat) (tok : String) (st : StoreState) (user : User) :
    AuthSession × StoreState :=
  let session : AuthSession :=
    { studyId := user.studyId, email := user.email, sessionToken := tok,
      expiresAt := now + SESSION_DURATION }
  let filteredSessions := st.sessions.filter (fun s => s.studyId != user.studyId)
  (session, { st with sessions := filteredSessions ++ [session] })

/-- `validateSession` of the source. Returns the resolved user (if any)
together with the possibly changed store (an expired session is deleted). -/
def validateSession (now : Nat) (st : StoreState) (sessionToken : String) :
    Option User × StoreState :=
  match st.sessions.find? (fun s => s.sessionToken == sessionToken) with
  | none => (none, st)
  | some session =>
    if now > session.expiresAt then
      (none, { st with sessions := st.sessions.filter (fun s => s.sessionToken != sessionToken) })
    else
      (st.users.find? (fun u => u.studyId == session.studyId), st)

/-- `logout` of the source: drop every session with the given token. -/
def logout (st : StoreState) (sessionToken : String) : StoreState :=
  { st with sessions := st.sessions.filter (fun s => s.sessionToken != sessionToken) }

/-- `hasDataAccess` of the source: validate the token and compare the
resolved user's study id with the requested one. -/
def hasDataAccess (now : Nat) (st : StoreState) (sessionToken requestedStudyId : String) : Bool :=
  match (validateSession now st sessionToken).1 with
  | some user => user.studyId == requestedStudyId
  | none => false

/-- `getCurrentUser` of the source: just `validateSession`. -/
def getCurrentUser (now : Nat) (st : StoreState) (sessionToken : String) : Option User :=
  (validateSession now st sessionToken).1

/-- Result record of `loginUser`: `{ success, user?, error?, locked? }`.
The `locked` flag is only ever set on the lockout path. -/
inductive LoginResult where
  | success (user : User) (sessionToken : String)
  | failure (error : String) (locked : Bool)
deriving Repr, DecidableEq

/-- The generic error string of the no-matching-user login branch. -/
def invalidCredentialsMsg : String :=
  "Invalid credentials. Please check your Study ID/Email and password."

/-- The error string of the wrong-password login branch; `n` is
`MAX_FAILED_ATTEMPTS - failedAttempts` after the increment, which the
source computes in ordinary (possibly negative) integer arithmetic. -/
def invalidPasswordMsg (n : Int) : String :=
  "Invalid password. " ++ toString n ++ " attempts remaining before account lock."

/-- The error string of the locked-account login branch; `m` is the number
of remaining minutes, `Math.ceil((until - now) / 60000)`. -/
def lockedMsg (m : Nat) : String :=
  "Account temporarily locked due to multiple failed attempts. Try again in "
    ++ toString m ++ " minutes."

/-- The predicate by which `loginUser` looks up the user record, applied
to the sanitized lowercased input. -/
def loginMatch (s : String) (u : User) : Bool :=
  jsToLower u.studyId == s || jsToLower u.email == s

/-- The part of `loginUser` after the lockout check has passed:
verify the password, and either reset the failure state and create a
session, or increment the failure counter (locking at the threshold). -/
def loginAfterLockCheck (verify : String → String → Bool) (now : Nat) (tok : String)
    (st : StoreState) (s : String) (user : User) (password : String) :
    LoginResult × StoreState :=
  if verify password user.passwordHash then
    let user' := { user with failedAttempts := 0, lockedUntil := none, lastLogin := now }
    let st' := { st with users := updateFirst (loginMatch s) (fun _ => user') st.users }
    let (session, st2) := createSession now tok st' user'
    (.success user' session.sessionToken, st2)
  else
    let f := user.failedAttempts + 1
    let user' :=
      if f ≥ MAX_FAILED_ATTEMPTS then
        { user with failedAttempts := f, lockedUntil := some (now + LOCK_DURATION) }
      else
        { user with failedAttempts := f }
    let logs' :=
      if f ≥ MAX_FAILED_ATTEMPTS then
        logSecurityEvent now "ACCOUNT_LOCKED" user.email st.securityLogs
      else st.securityLogs
    (.failure (invalidPasswordMsg ((MAX_FAILED_ATTEMPTS : Int) - (f : Int))) false,
     { st with users := updateFirst (loginMatch s) (fun _ => user') st.users,
               securityLogs := logs' })

/-- `loginUser` of the source. `verify` stands for `bcrypt.compare`, `now`
for the clock, `tok` for the `uuidv4()` the session would receive. -/
def loginUser (verify : String → String → Bool) (now : Nat) (tok : String)
    (st : StoreState) (studyIdOrEmail password : String) : LoginResult × StoreState :=
  let s := sanitizeInput (jsToLower studyIdOrEmail)
  match st.users.find? (loginMatch s) with
  | none =>
    (.failure invalidCredentialsMsg false,
     { st with securityLogs := logSecurityEvent now "INVALID_CREDENTIALS" s st.securityLogs })
  | some user =>
    match user.lockedUntil with
    | some t =>
      if now < t then
        (.failure (lockedMsg ((t - now + 59999) / 60000)) true, st)
      else
        loginAfterLockCheck verify now tok st s user password
    | none => loginAfterLockCheck verify now tok st s user password

/-- Result record `{ success, error? }` used by the password-reset flow. -/
structure SimpleResult where
  success : Bool
  error : Option String
deriving Repr, DecidableEq

/-- The error string of every invalid-reset-token branch. -/
def invalidTokenMsg : String := "Invalid or expired reset token"

/-- `initiatePasswordReset` of the source. `isEmail` stands for
`validator.isEmail`, `tok` for the generated `uuidv4()` reset token. -/
def initiatePasswordReset (isEmail : String → Bool) (now : Nat) (tok : String)
    (st : StoreState) (email : String) : SimpleResult × StoreState :=
  let s := sanitizeInput (jsToLower email)
  if !(validateEmail isEmail s) then
    ({ success := false, error := some "Please enter a valid Gmail address" }, st)
  else
    match st.users.find? (fun u => u.email == s) with
    | none => ({ success := true, error := none }, st)
    | some _ =>
      let f := fun (u : User) =>
        { u with resetToken := some tok, resetTokenExpiry := some (now + 60 * 60 * 1000) }
      ({ success := true, error := none },
       { st with users := updateFirst (fun u => u.email == s) f st.users })

/-- `resetPassword` of the source. `hash` stands for `bcrypt.hash` at the
salt the call would draw. -/
def resetPassword (hash : String → String) (now : Nat) (st : StoreState)
    (email resetToken newPassword : String) : SimpleResult × StoreState :=
  let s := sanitizeInput (jsToLower email)
  let check := validatePassword newPassword
  if !check.isValid then
    ({ success := false, error := some (joinSep ". " check.errors) }, st)
  else
    match st.users.find? (fun u => u.email == s) with
    | none => ({ success := false, error := some invalidTokenMsg }, st)
    | some user =>
      match user.resetTokenExpiry with
      | none => ({ success := false, error := some invalidTokenMsg }, st)
      | some expiry =>
        if user.resetToken != some resetToken || now > expiry then
          ({ success := false, error := some invalidTokenMsg }, st)
        else
          let f := fun (u : User) =>
            { u with passwordHash := hash newPassword, resetToken := none,
                     resetTokenExpiry := none, failedAttempts := 0, lockedUntil := none }
          ({ success := true, error := none },
           { st with users := updateFirst (fun u => u.email == s) f st.users })

/-! ### Shared sample data for concrete witnesses -/

/-- A store with no users, sessions or log entries. -/
def emptyState : StoreState := { users := [], sessions := [], securityLogs := [] }

/-- A registered, unlocked sample user. -/
def sampleUser : User :=
  { studyId := "sid-a", email := "a@gmail.com", passwordHash := "pw",
    preferredName := "Ana", createdAt := 0, lastLogin := 0, failedAttempts := 0,
    lockedUntil := none, isVerified := true, resetToken := none, resetTokenExpiry := none }

/-- A store holding exactly `sampleUser`. -/
def oneUserState : StoreState := { users := [sampleUser], sessions := [], securityLogs := [] }

/-- A password comparison modelling a degenerate bcrypt in which the stored
hash is the plaintext itself; used only to instantiate witnesses. -/
def verifyEq : String → String → Bool := fun p h => p == h

/-! ### General helper lemmas -/

/-- Updating the first `p`-match of a list keeps it the first `p`-match,
provided the update preserves `p`. -/
theorem updateFirst_find? {α : Type} {p : α → Bool} {f : α → α} {l : List α} {a : α}
    (h : l.find? p = some a) (hf : p (f a) = true) :
    (updateFirst p f l).find? p = some (f a) := by
  induction l with
  | nil => simp [List.find?] at h
  | cons x xs ih =>
    by_cases hx : p x = true
    · rw [List.find?_cons_of_pos _ hx] at h
      cases h
      unfold updateFirst
      rw [if_pos hx]
      exact List.find?_cons_of_pos _ hf
    · rw [List.find?_cons_of_neg _ hx] at h
      unfold updateFirst
      rw [if_neg hx]
      rw [List.find?_cons_of_neg _ hx]
      exact ih h

/-! ### Claim C8: the password policy reports every violated rule -/

/-- Claim C8: `validatePassword` returns `isValid = true` with an empty
violation list exactly when all five rules hold, and otherwise returns
`isValid = false` with exactly one message per violated rule: each rule's
message is present iff that rule is violated, and the number of messages
equals the number of violated rules (no short-circuiting). -/
theorem claim_C8 (p : String) :
    ((validatePassword p).isValid = true ↔ (validatePassword p).errors = []) ∧
    ((validatePassword p).isValid = true ↔
      (¬ p.length < 8 ∧ p.data.any Char.isUpper = true ∧ p.data.any Char.isLower = true ∧
       p.data.any Char.isDigit = true ∧
       p.data.any (fun c => specialChars.data.contains c) = true)) ∧
    (lenMsg ∈ (validatePassword p).errors ↔ p.length < 8) ∧
    (upperMsg ∈ (validatePassword p).errors ↔ ¬ p.data.any Char.isUpper = true) ∧
    (lowerMsg ∈ (validatePassword p).errors ↔ ¬ p.data.any Char.isLower = true) ∧
    (digitMsg ∈ (validatePassword p).errors ↔ ¬ p.data.any Char.isDigit = true) ∧
    (specialMsg ∈ (validatePassword p).errors ↔
      ¬ p.data.any (fun c => specialChars.data.contains c) = true) ∧
    ((validatePassword p).errors.length =
      (if p.length < 8 then 1 else 0) +
      (if p.data.any Char.isUpper = true then 0 else 1) +
      (if p.data.any Char.isLower = true then 0 else 1) +
      (if p.data.any Char.isDigit = true then 0 else 1) +
      (if p.data.any (fun c => specialChars.data.contains c) = true then 0 else 1)) := by
  have d1 : lenMsg ≠ upperMsg := by decide
  have d2 : lenMsg ≠ lowerMsg := by decide
  have d3 : lenMsg ≠ digitMsg := by decide
  have d4 : lenMsg ≠ specialMsg := by decide
  have d5 : upperMsg ≠ lowerMsg := by decide
  have d6 : upperMsg ≠ digitMsg := by decide
  have d7 : upperMsg ≠ specialMsg := by decide
  have d8 : lowerMsg ≠ digitMsg := by decide
  have d9 : lowerMsg ≠ specialMsg := by decide
  have d10 : digitMsg ≠ specialMsg := by decide
  have e1 := d1.symm
  have e2 := d2.symm
  have e3 := d3.symm
  have e4 := d4.symm
  have e5 := d5.symm
  have e6 := d6.symm
  have e7 := d7.symm
  have e8 := d8.symm
  have e9 := d9.symm
  have e10 := d10.symm
  by_cases c1 : p.length < 8 <;>
  by_cases c2 : p.data.any Char.isUpper = true <;>
  by_cases c3 : p.data.any Char.isLower = true <;>
  by_cases c4 : p.data.any Char.isDigit = true <;>
  by_cases c5 : ∃ x ∈ p.data, x ∈ specialChars.data <;>
    (try push_neg at c5) <;>
    simp [validatePassword, c1, c2, c3, c4, c5, d1, d2, d3, d4, d5, d6, d7, d8, d9, d10,
      e1, e2, e3, e4, e5, e6, e7, e8, e9, e10] <;>
    rw [if_pos c5, if_neg (by push_neg; exact c5)] <;> simp

/-! ### Claim C9: the security log is bounded to the most recent 100 entries -/

/-- Claim C9: `logSecurityEvent` appends the new entry and keeps exactly the
most recent `min (length + 1) 100` entries: the result is the suffix of the
appended log obtained by dropping the surplus from the front, its length
never exceeds 100, and the new entry is always its last element. -/
theorem claim_C9 (now : Nat) (ev ident : String) (logs : List LogEntry) :
    logSecurityEvent now ev ident logs =
      (logs ++ [({ timestamp := now, event := ev, identifier := ident } : LogEntry)]).drop
        ((logs.length + 1) - 100) ∧
    (logSecurityEvent now ev ident logs).length = min (logs.length + 1) 100 ∧
    (logSecurityEvent now ev ident logs).getLast? =
      some ({ timestamp := now, event := ev, identifier := ident } : LogEntry) := by
  simp only [logSecurityEvent, List.length_append, List.length_cons, List.length_nil]
  by_cases h : logs.length + 1 > 100
  · rw [if_pos (by simpa using h)]
    refine ⟨by simp, ?_, ?_⟩
    · simp only [List.length_drop, List.length_append, List.length_cons, List.length_nil]
      omega
    · rw [List.drop_append_of_le_length (by omega)]
      exact List.getLast?_concat _
  · rw [if_neg (by simpa using h)]
    refine ⟨?_, ?_, List.getLast?_concat _⟩
    · have h0 : logs.length + 1 - 100 = 0 := by omega
      rw [h0, List.drop_zero]
    · simp only [List.length_append, List.length_cons, List.length_nil]
      omega

/-! ### Claim C6: the access gate grants exactly the owning user -/

/-- Claim C6: `hasDataAccess token target` is true iff `validateSession`
resolves a live session to a user whose study id equals `target`; in
particular a valid token of one user never grants access to another
user's identifier. -/
theorem claim_C6 (now : Nat) (st : StoreState) (tok target : String) :
    hasDataAccess now st tok target = true ↔
      ∃ u, (validateSession now st tok).1 = some u ∧ u.studyId = target := by
  unfold hasDataAccess
  cases h : (validateSession now st tok).1 with
  | none => simp [h]
  | some u => simp [h]

/-! ### Claim C7: session validation and lazy purge of stale sessions -/

/-- Claim C7: `validateSession` returns none and leaves the store untouched
when no session carries the token; when the first matching session is
expired (`now > expiresAt`) it returns none and deletes that session from
the session collection; otherwise it returns the first user record whose
study id equals the session's owning id, leaving the store untouched. -/
theorem claim_C7 (now : Nat) (st : StoreState) (tok : String) :
    (st.sessions.find? (fun s => s.sessionToken == tok) = none →
      validateSession now st tok = (none, st)) ∧
    (∀ s, st.sessions.find? (fun s2 => s2.sessionToken == tok) = some s →
      s.expiresAt < now →
        (validateSession now st tok).1 = none ∧
        (validateSession now st tok).2.sessions =
          st.sessions.filter (fun s2 => s2.sessionToken != tok) ∧
        s ∉ (validateSession now st tok).2.sessions) ∧
    (∀ s, st.sessions.find? (fun s2 => s2.sessionToken == tok) = some s →
      now ≤ s.expiresAt →
        (validateSession now st tok).1 = st.users.find? (fun u => u.studyId == s.studyId) ∧
        (validateSession now st tok).2 = st) := by
  refine ⟨?_, ?_, ?_⟩
  · intro h
    simp only [validateSession, h]
  · intro s hs hexp
    have hgt : now > s.expiresAt := hexp
    have htok : s.sessionToken = tok := by
      have := List.find?_some hs
      simpa using this
    simp only [validateSession, hs]
    rw [if_pos hgt]
    refine ⟨rfl, rfl, ?_⟩
    intro hmem
    have h2 := (List.mem_filter.mp hmem).2
    simp [htok] at h2
  · intro s hs hle
    have hngt : ¬ now > s.expiresAt := not_lt.mpr hle
    simp only [validateSession, hs]
    rw [if_neg hngt]
    exact ⟨rfl, rfl⟩

/-- A store holding the sample user and one of its sessions, already
expired at time 20. -/
def staleState : StoreState :=
  { users := [sampleUser],
    sessions := [{ studyId := "sid-a", email := "a@gmail.com", sessionToken := "tk",
                   expiresAt := 10 }],
    securityLogs := [] }

/-- Claim C7 witness: the expired-session part evaluated at `staleState`
at time 20: validation returns none and the stale session is deleted. -/
theorem claim_C7_witness :
    (validateSession 20 staleState "tk").1 = none ∧
    (validateSession 20 staleState "tk").2.sessions =
      staleState.sessions.filter (fun s2 => s2.sessionToken != "tk") ∧
    ({ studyId := "sid-a", email := "a@gmail.com", sessionToken := "tk", expiresAt := 10 } :
      AuthSession) ∉ (validateSession 20 staleState "tk").2.sessions :=
  (claim_C7 20 staleState "tk").2.1 ⟨"sid-a", "a@gmail.com", "tk", 10⟩ (by rfl) (by decide)

/-! ### Claim C2: enumeration resistance of the reset initiation -/

/-- Claim C2 counterexample: the claim quantifies over every email input,
but an input failing the Gmail format check is rejected with a failure
result even though no user record with that email exists: at the empty
store, `initiatePasswordReset` on the email "foo" returns success = false
(here the third-party format predicate is instantiated to accept
everything, so the rejection is due solely to the repository's own
`@gmail.com` suffix check). -/
theorem claim_C2_cex :
    emptyState.users.find? (fun u => u.email == sanitizeInput (jsToLower "foo")) = none ∧
    ((initiatePasswordReset (fun _ => true) 0 "rt" emptyState "foo").1).success = false :=
  ⟨rfl, rfl⟩

/-- Claim C2 amended: for every email input whose sanitized form passes the
email validation, `initiatePasswordReset` returns the success result with
no error payload, identically whether or not a user record with that email
exists (user-enumeration defense). -/
theorem claim_C2_amended (isEmail : String → Bool) (now : Nat) (tok : String)
    (st : StoreState) (email : String)
    (h : validateEmail isEmail (sanitizeInput (jsToLower email)) = true) :
    (initiatePasswordReset isEmail now tok st email).1 =
      { success := true, error := none } := by
  simp only [initiatePasswordReset, h]
  cases hf : st.users.find? (fun u => u.email == sanitizeInput (jsToLower email)) <;> simp [hf]

/-- Claim C2 witness: the amended claim evaluated at a registered email of
the one-user store. -/
theorem claim_C2_witness :
    (initiatePasswordReset (fun _ => true) 0 "rt" oneUserState "a@gmail.com").1 =
      { success := true, error := none } :=
  claim_C2_amended (fun _ => true) 0 "rt" oneUserState "a@gmail.com" (by decide)

/-! ### Claim C5: single-use reset tokens -/

/-- Claim C5 counterexample: the claim states that `resetPassword` fails
with `InvalidOrExpiredToken` whenever no user matches the email, but the
password-strength check runs first: at the empty store (so no user
matches) with the weak new password "x", the call fails with the
strength-violation message, not with the invalid-token error. -/
theorem claim_C5_cex :
    emptyState.users.find? (fun u => u.email == sanitizeInput (jsToLower "a@gmail.com")) = none ∧
    ((resetPassword (fun p => p) 0 emptyState "a@gmail.com" "rt" "x").1).success = false ∧
    ((resetPassword (fun p => p) 0 emptyState "a@gmail.com" "rt" "x").1).error ≠
      some invalidTokenMsg := by
  refine ⟨rfl, rfl, ?_⟩
  decide

/-- Claim C5 amended: provided the new password passes the strength
validation, `resetPassword` fails with `InvalidOrExpiredToken` whenever no
user matches the email, the stored token differs, the ticket is empty, or
`now > expiry`; on success it clears both reset-ticket fields, zeroes the
failure counter, clears the lock state, and a second call with the same
email and token fails with `InvalidOrExpiredToken`. -/
theorem claim_C5_amended (hash : String → String) (now now2 : Nat) (st : StoreState)
    (email tok newPassword : String)
    (hpw : (validatePassword newPassword).isValid = true) :
    (st.users.find? (fun u => u.email == sanitizeInput (jsToLower email)) = none →
      resetPassword hash now st email tok newPassword =
        ({ success := false, error := some invalidTokenMsg }, st)) ∧
    (∀ u, st.users.find? (fun u2 => u2.email == sanitizeInput (jsToLower email)) = some u →
      (u.resetToken ≠ some tok ∨ u.resetTokenExpiry = none ∨
        (∃ e, u.resetTokenExpiry = some e ∧ e < now)) →
      resetPassword hash now st email tok newPassword =
        ({ success := false, error := some invalidTokenMsg }, st)) ∧
    (∀ u e, st.users.find? (fun u2 => u2.email == sanitizeInput (jsToLower email)) = some u →
      u.resetToken = some tok → u.resetTokenExpiry = some e → now ≤ e →
      (resetPassword hash now st email tok newPassword).1 =
        { success := true, error := none } ∧
      (resetPassword hash now st email tok newPassword).2.users.find?
          (fun u2 => u2.email == sanitizeInput (jsToLower email)) =
        some { u with passwordHash := hash newPassword, resetToken := none,
                      resetTokenExpiry := none, failedAttempts := 0, lockedUntil := none } ∧
      (resetPassword hash now2 (resetPassword hash now st email tok newPassword).2
          email tok newPassword).1 =
        { success := false, error := some invalidTokenMsg }) := by
  refine ⟨?_, ?_, ?_⟩
  · intro h
    simp [resetPassword, hpw, h]
  · intro u hu hbad
    rcases hbad with hne | hnone | ⟨e, he, hlt⟩
    · cases hexp : u.resetTokenExpiry with
      | none => simp [resetPassword, hpw, hu, hexp]
      | some e =>
        have hb : (u.resetToken != some tok) = true := bne_iff_ne.mpr hne
        simp [resetPassword, hpw, hu, hexp, hb]
    · simp [resetPassword, hpw, hu, hnone]
    · have hgt : now > e := hlt
      simp [resetPassword, hpw, hu, he, hgt]
  · intro u e hu hre hexp hle
    have hrun : resetPassword hash now st email tok newPassword =
        ({ success := true, error := none },
         { st with users := updateFirst (fun u2 => u2.email == sanitizeInput (jsToLower email)) (fun u2 => { u2 with passwordHash := hash newPassword, resetToken := none, resetTokenExpiry := none, failedAttempts := 0, lockedUntil := none }) st.users }) := by
      simp [resetPassword, hpw, hu, hexp, hre, Nat.not_lt.mpr hle]
    have hpu := List.find?_some hu
    have hfind := @updateFirst_find? User
      (fun u2 => u2.email == sanitizeInput (jsToLower email))
      (fun u2 => { u2 with passwordHash := hash newPassword, resetToken := none, resetTokenExpiry := none, failedAttempts := 0, lockedUntil := none })
      st.users u hu hpu
    refine ⟨by rw [hrun], ?_, ?_⟩
    · rw [hrun]
      exact hfind
    · rw [hrun]
      simp [resetPassword, hpw, hfind]

/-- Claim C5 witness: the amended claim's success-and-single-use part
evaluated at a user holding reset token "rt" with expiry 100, at time 50,
with the strong password "Abcdef1!". -/
theorem claim_C5_witness :
    (resetPassword (fun p => p) 50
        { users := [{ sampleUser with resetToken := some "rt", resetTokenExpiry := some 100 }],
          sessions := [], securityLogs := [] } "a@gmail.com" "rt" "Abcdef1!").1 =
      { success := true, error := none } ∧
    (resetPassword (fun p => p) 50
        { users := [{ sampleUser with resetToken := some "rt", resetTokenExpiry := some 100 }],
          sessions := [], securityLogs := [] } "a@gmail.com" "rt" "Abcdef1!").2.users.find?
        (fun u2 => u2.email == sanitizeInput (jsToLower "a@gmail.com")) =
      some { sampleUser with passwordHash := "Abcdef1!", resetToken := none,
                             resetTokenExpiry := none, failedAttempts := 0, lockedUntil := none } ∧
    (resetPassword (fun p => p) 60
        (resetPassword (fun p => p) 50
          { users := [{ sampleUser with resetToken := some "rt", resetTokenExpiry := some 100 }],
            sessions := [], securityLogs := [] } "a@gmail.com" "rt" "Abcdef1!").2
        "a@gmail.com" "rt" "Abcdef1!").1 =
      { success := false, error := some invalidTokenMsg } :=
  (claim_C5_amended (fun p => p) 50 60
      { users := [{ sampleUser with resetToken := some "rt", resetTokenExpiry := some 100 }],
        sessions := [], securityLogs := [] } "a@gmail.com" "rt" "Abcdef1!" (by decide)).2.2
    { sampleUser with resetToken := some "rt", resetTokenExpiry := some 100 } 100
    (by rfl) (by rfl) (by rfl) (by decide)

/-! ### Claim C1: distinguishability of the two login failure paths -/

/-- The wrong-password error message never coincides with the generic
invalid-credentials message, whatever the reported attempt count. -/
theorem invalidPasswordMsg_ne (n : Int) : invalidPasswordMsg n ≠ invalidCredentialsMsg := by
  intro h
  have h2 := congrArg (fun s => s.data.get? 8) h
  simp only [invalidPasswordMsg, invalidCredentialsMsg, String.data_append,
    List.append_assoc] at h2
  rw [List.get?_append (by decide)] at h2
  exact absurd h2 (by decide)

/-- Claim C1 counterexample: at a store holding only the sample user, a
login with an unknown email and a login with the right email but a wrong
password both fail, but with different error payloads, so the caller can
distinguish "no such user" from "wrong password". -/
theorem claim_C1_cex :
    (loginUser verifyEq 0 "tok" oneUserState "b@gmail.com" "pw").1 =
      .failure invalidCredentialsMsg false ∧
    (loginUser verifyEq 0 "tok" oneUserState "a@gmail.com" "wrong").1 =
      .failure (invalidPasswordMsg 2) false ∧
    invalidPasswordMsg 2 ≠ invalidCredentialsMsg :=
  ⟨rfl, rfl, by decide⟩

/-- Claim C1 amended: both failure paths share the result shape (success
flag false, an error string, no locked flag), but the error strings always
differ: the no-matching-user path returns the fixed generic message while
the wrong-password path (existing, unlocked user) returns a message
reporting the remaining attempts, and no attempt count makes the two
messages equal — the caller can therefore distinguish the two cases. -/
theorem claim_C1_amended (verify : String → String → Bool) (now : Nat) (tok : String)
    (st : StoreState) (input password : String) :
    (st.users.find? (loginMatch (sanitizeInput (jsToLower input))) = none →
      (loginUser verify now tok st input password).1 =
        .failure invalidCredentialsMsg false) ∧
    (∀ u, st.users.find? (loginMatch (sanitizeInput (jsToLower input))) = some u →
      (∀ t, u.lockedUntil = some t → t ≤ now) →
      verify password u.passwordHash = false →
      (loginUser verify now tok st input password).1 =
        .failure (invalidPasswordMsg
          ((MAX_FAILED_ATTEMPTS : Int) - ((u.failedAttempts + 1 : Nat) : Int))) false) ∧
    (∀ n : Int, invalidPasswordMsg n ≠ invalidCredentialsMsg) := by
  refine ⟨?_, ?_, invalidPasswordMsg_ne⟩
  · intro h
    simp [loginUser, h]
  · intro u hu hnl hv
    cases hl : u.lockedUntil with
    | none => simp [loginUser, hu, hl, loginAfterLockCheck, hv]
    | some t =>
      have hnlt : ¬ now < t := not_lt.mpr (hnl t hl)
      simp [loginUser, hu, hl, hnlt, loginAfterLockCheck, hv]

/-- Claim C1 witness: the amended claim's wrong-password part evaluated at
the sample user with the wrong password. -/
theorem claim_C1_witness :
    (loginUser verifyEq 0 "tok" oneUserState "a@gmail.com" "wrong").1 =
      .failure (invalidPasswordMsg
        ((MAX_FAILED_ATTEMPTS : Int) - ((sampleUser.failedAttempts + 1 : Nat) : Int))) false :=
  (claim_C1_amended verifyEq 0 "tok" oneUserState "a@gmail.com" "wrong").2.1 sampleUser
    (by rfl) (by intro t ht; simp [sampleUser] at ht) (by rfl)

/-! ### Claim C3: the lockout state machine of the login flow -/

/-- A sample user that is locked until time 100 with three recorded
failures. -/
def lockedUser : User := { sampleUser with lockedUntil := some 100, failedAttempts := 3 }

/-- A store holding exactly `lockedUser`. -/
def lockedState : StoreState := { users := [lockedUser], sessions := [], securityLogs := [] }

/-- Claim C3: (a) a third consecutive failed attempt (counter 2, wrong
password, unlocked) rejects with zero attempts remaining and stores the
user with counter 3 and lock expiry `now + 30min`; (b) while `now` is
before the lock expiry, every attempt is rejected with `AccountLocked`
carrying the remaining minutes (rounded up), the store is unchanged (the
counter is not incremented), and the result is the same for every
password-verification function (the hash check is never consulted);
(c) once the window has elapsed, a correct password succeeds and the
returned user carries a zeroed failure counter and no lock. -/
theorem claim_C3 (verify verify2 : String → String → Bool) (now : Nat) (tok : String)
    (st : StoreState) (input password : String) (u : User)
    (hu : st.users.find? (loginMatch (sanitizeInput (jsToLower input))) = some u) :
    (u.lockedUntil = none → u.failedAttempts = 2 → verify password u.passwordHash = false →
      (loginUser verify now tok st input password).1 =
        .failure (invalidPasswordMsg 0) false ∧
      (loginUser verify now tok st input password).2.users.find?
          (loginMatch (sanitizeInput (jsToLower input))) =
        some { u with failedAttempts := 3, lockedUntil := some (now + LOCK_DURATION) }) ∧
    (∀ t, u.lockedUntil = some t → now < t →
      loginUser verify now tok st input password =
        (.failure (lockedMsg ((t - now + 59999) / 60000)) true, st) ∧
      loginUser verify now tok st input password =
        loginUser verify2 now tok st input password) ∧
    (∀ t, u.lockedUntil = some t → t ≤ now → verify password u.passwordHash = true →
      (loginUser verify now tok st input password).1 =
        .success { u with failedAttempts := 0, lockedUntil := none, lastLogin := now } tok) := by
  have hpu := List.find?_some hu
  refine ⟨?_, ?_, ?_⟩
  · intro hl hf hv
    have h3 : u.failedAttempts + 1 ≥ MAX_FAILED_ATTEMPTS := by
      simp [MAX_FAILED_ATTEMPTS, hf]
    have hrun : loginUser verify now tok st input password =
        (.failure (invalidPasswordMsg
            ((MAX_FAILED_ATTEMPTS : Int) - ((u.failedAttempts + 1 : Nat) : Int))) false,
         { st with
             users := updateFirst (loginMatch (sanitizeInput (jsToLower input))) (fun _ => { u with failedAttempts := u.failedAttempts + 1, lockedUntil := some (now + LOCK_DURATION) }) st.users,
             securityLogs := logSecurityEvent now "ACCOUNT_LOCKED" u.email st.securityLogs }) := by
      simp [loginUser, hu, hl, loginAfterLockCheck, hv, h3]
    rw [hrun]
    constructor
    · simp [hf, MAX_FAILED_ATTEMPTS]
    · have hfind := @updateFirst_find? User
        (loginMatch (sanitizeInput (jsToLower input)))
        (fun _ => { u with failedAttempts := u.failedAttempts + 1, lockedUntil := some (now + LOCK_DURATION) })
        st.users u hu hpu
      simpa [hf] using hfind
  · intro t hl hlt
    constructor
    · simp [loginUser, hu, hl, hlt]
    · simp [loginUser, hu, hl, hlt]
  · intro t hl hle hv
    have hnlt : ¬ now < t := not_lt.mpr hle
    simp [loginUser, hu, hl, hnlt, loginAfterLockCheck, hv, createSession]

/-- Claim C3 witness: the while-locked part evaluated at the locked sample
user at time 50 (lock expiry 100): the attempt is rejected with one minute
remaining and the store is unchanged. -/
theorem claim_C3_witness :
    loginUser verifyEq 50 "tok" lockedState "a@gmail.com" "pw" =
      (.failure (lockedMsg 1) true, lockedState) :=
  (((claim_C3 verifyEq (fun _ _ => true) 50 "tok" lockedState "a@gmail.com" "pw" lockedUser
      (by rfl)).2.1) 100 (by rfl) (by decide)).1

/-! ### Claim C10: lock expiry does not reset the failure counter -/

/-- Claim C10: for a user whose lock has expired (`t ≤ now`) while the
failure counter still holds at least 3, a single further wrong-password
attempt is rejected and re-locks the account until `now + 30min`, with the
counter advanced to its previous value plus one. -/
theorem claim_C10 (verify : String → String → Bool) (now : Nat) (tok : String)
    (st : StoreState) (input password : String) (u : User) (t : Nat)
    (hu : st.users.find? (loginMatch (sanitizeInput (jsToLower input))) = some u)
    (hl : u.lockedUntil = some t) (hle : t ≤ now)
    (hv : verify password u.passwordHash = false)
    (hcnt : 3 ≤ u.failedAttempts) :
    (loginUser verify now tok st input password).1 =
      .failure (invalidPasswordMsg
        ((MAX_FAILED_ATTEMPTS : Int) - ((u.failedAttempts + 1 : Nat) : Int))) false ∧
    (loginUser verify now tok st input password).2.users.find?
        (loginMatch (sanitizeInput (jsToLower input))) =
      some { u with failedAttempts := u.failedAttempts + 1, lockedUntil := some (now + LOCK_DURATION) } := by
  have hpu := List.find?_some hu
  have hnlt : ¬ now < t := not_lt.mpr hle
  have h3 : u.failedAttempts + 1 ≥ MAX_FAILED_ATTEMPTS := by
    simp only [MAX_FAILED_ATTEMPTS]
    omega
  have hrun : loginUser verify now tok st input password =
      (.failure (invalidPasswordMsg
          ((MAX_FAILED_ATTEMPTS : Int) - ((u.failedAttempts + 1 : Nat) : Int))) false,
       { st with
           users := updateFirst (loginMatch (sanitizeInput (jsToLower input))) (fun _ => { u with failedAttempts := u.failedAttempts + 1, lockedUntil := some (now + LOCK_DURATION) }) st.users,
           securityLogs := logSecurityEvent now "ACCOUNT_LOCKED" u.email st.securityLogs }) := by
    simp [loginUser, hu, hl, hnlt, loginAfterLockCheck, hv, h3]
  rw [hrun]
  exact ⟨rfl, @updateFirst_find? User (loginMatch (sanitizeInput (jsToLower input)))
    (fun _ => { u with failedAttempts := u.failedAttempts + 1, lockedUntil := some (now + LOCK_DURATION) })
    st.users u hu hpu⟩

/-- Claim C10 witness: the locked sample user (counter 3, lock expiry 100)
at time 200 with a wrong password: rejected with -1 attempts remaining and
re-locked until 200 + 30min with counter 4. -/
theorem claim_C10_witness :
    (loginUser verifyEq 200 "tok" lockedState "a@gmail.com" "wrong").1 =
      .failure (invalidPasswordMsg
        ((MAX_FAILED_ATTEMPTS : Int) - ((lockedUser.failedAttempts + 1 : Nat) : Int))) false ∧
    (loginUser verifyEq 200 "tok" lockedState "a@gmail.com" "wrong").2.users.find?
        (loginMatch (sanitizeInput (jsToLower "a@gmail.com"))) =
      some { lockedUser with failedAttempts := lockedUser.failedAttempts + 1, lockedUntil := some (200 + LOCK_DURATION) } :=
  claim_C10 verifyEq 200 "tok" lockedState "a@gmail.com" "wrong" lockedUser 100
    (by rfl) (by rfl) (by decide) (by rfl) (by decide)

/-! ### Claim C4: single active session per user -/

/-- Claim C4: after `createSession`, the only session owned by the user's
study id is the newly created one; any previously issued token that only
ever named sessions of this user no longer validates; and the fresh token
validates to the stored user record with that study id (within the session
lifetime). -/
theorem claim_C4 (now now2 : Nat) (tok oldTok : String) (st : StoreState) (user u0 : User) :
    (∀ s ∈ (createSession now tok st user).2.sessions, s.studyId = user.studyId →
      s = { studyId := user.studyId, email := user.email, sessionToken := tok,
            expiresAt := now + SESSION_DURATION }) ∧
    ((∀ s ∈ st.sessions, s.sessionToken = oldTok → s.studyId = user.studyId) → oldTok ≠ tok →
      (validateSession now2 (createSession now tok st user).2 oldTok).1 = none) ∧
    ((∀ s ∈ st.sessions, s.sessionToken ≠ tok) → now2 ≤ now + SESSION_DURATION →
      st.users.find? (fun u2 => u2.studyId == user.studyId) = some u0 →
      (validateSession now2 (createSession now tok st user).2 tok).1 = some u0) := by
  refine ⟨?_, ?_, ?_⟩
  · intro s hs hsid
    simp only [createSession] at hs
    rcases List.mem_append.mp hs with hmem | hmem
    · have h2 := (List.mem_filter.mp hmem).2
      simp [hsid] at h2
    · simpa using hmem
  · intro hown hne
    have hfind : ((createSession now tok st user).2.sessions).find?
        (fun s => s.sessionToken == oldTok) = none := by
      apply List.find?_eq_none.mpr
      intro x hx
      simp only [createSession] at hx
      rcases List.mem_append.mp hx with hmem | hmem
      · have hflt := (List.mem_filter.mp hmem).2
        intro hbeq
        have hxtok : x.sessionToken = oldTok := by simpa using hbeq
        have := hown x (List.mem_filter.mp hmem).1 hxtok
        simp [this] at hflt
      · have hx2 : x = { studyId := user.studyId, email := user.email, sessionToken := tok, expiresAt := now + SESSION_DURATION } := by
          simpa using hmem
        intro hbeq
        rw [hx2] at hbeq
        have : tok = oldTok := by simpa using hbeq
        exact hne this.symm
    simp only [validateSession, hfind]
  · intro hfresh hle hu0
    have hleft : ((st.sessions.filter (fun s => s.studyId != user.studyId)).find?
        (fun s => s.sessionToken == tok)) = none := by
      apply List.find?_eq_none.mpr
      intro x hx
      have := hfresh x (List.mem_filter.mp hx).1
      simp [this]
    have hfind : ((createSession now tok st user).2.sessions).find?
        (fun s => s.sessionToken == tok) =
        some { studyId := user.studyId, email := user.email, sessionToken := tok, expiresAt := now + SESSION_DURATION } := by
      simp only [createSession]
      rw [List.find?_append, hleft]
      simp
    have hngt : ¬ now2 > now + SESSION_DURATION := not_lt.mpr hle
    simp only [validateSession, hfind]
    rw [if_neg hngt]
    simpa using hu0

/-- Claim C4 witness: the sample user's old session is invalidated by the
new one, and the new token resolves to the stored user record. -/
theorem claim_C4_witness :
    (validateSession 0
      (createSession 0 "new-tok"
        { users := [sampleUser],
          sessions := [{ studyId := "sid-a", email := "a@gmail.com", sessionToken := "old-tok",
                         expiresAt := 500 }],
          securityLogs := [] } sampleUser).2 "old-tok").1 = none ∧
    (validateSession 0
      (createSession 0 "new-tok"
        { users := [sampleUser],
          sessions := [{ studyId := "sid-a", email := "a@gmail.com", sessionToken := "old-tok",
                         expiresAt := 500 }],
          securityLogs := [] } sampleUser).2 "new-tok").1 = some sampleUser :=
  ⟨((claim_C4 0 0 "new-tok" "old-tok"
      { users := [sampleUser],
        sessions := [{ studyId := "sid-a", email := "a@gmail.com", sessionToken := "old-tok",
                       expiresAt := 500 }],
        securityLogs := [] } sampleUser sampleUser).2.1)
      (by intro s hs hst; simp at hs; rw [hs]; decide) (by decide),
   ((claim_C4 0 0 "new-tok" "old-tok"
      { users := [sampleUser],
        sessions := [{ studyId := "sid-a", email := "a@gmail.com", sessionToken := "old-tok",
                       expiresAt := 500 }],
        securityLogs := [] } sampleUser sampleUser).2.2)
      (by intro s hs; simp at hs; rw [hs]; decide) (by decide) (by rfl)⟩

end PomoGrow
